import Mathlib

/-!
Shallow embedding of `creditagricole_particuliers/operations.py`.

The embedding models decoded JSON values directly (the `json.loads` /
serialization round-trip between response text and parsed value is elided:
HTTP bodies and fixture contents are represented by their parse).  Python's
`str`-vs-object distinction for the mock write sink is kept through the
`MockPayload` type.  Python integers are unbounded, and every count/limit
reachable from the public constructors is a natural number, so counts are
modelled as `Nat`; note that `if count > limit then count - limit else 0`
coincides with truncated `Nat` subtraction `count - limit`.
-/

/-- A decoded JSON value (what `json.loads` produces). -/
inductive Json where
  | null : Json
  | bool (b : Bool) : Json
  | num (n : Int) : Json
  | str (s : String) : Json
  | arr (elems : List Json) : Json
  | obj (fields : List (String × Json)) : Json

/-- Python exceptions surfaced by the retrieval code. -/
inductive PyError where
  | remoteError (status : Nat) (text : Json)
  | fixtureNotFound (name : String)
  | keyError (key : String)
  | typeError

/-- First value bound to a key in an association list (`dict` lookup). -/
def lookupPairs : List (String × Json) → String → Option Json
  | [], _ => none
  | (k', v) :: rest, k => if k' = k then some v else lookupPairs rest k

/-- Python `rsp[k]` would succeed: key lookup on a dict, `none` otherwise. -/
def Json.lookup : Json → String → Option Json
  | Json.obj kvs, k => lookupPairs kvs k
  | _, _ => none

/-- Python subscription `rsp[k]`: `KeyError` on a missing key, `TypeError`
when string-subscripting a non-dict value. -/
def Json.getKey (j : Json) (k : String) : Except PyError Json :=
  match j with
  | Json.obj kvs =>
    match lookupPairs kvs k with
    | some v => Except.ok v
    | none => Except.error (PyError.keyError k)
  | _ => Except.error PyError.typeError

/-- Python `k in rsp` on the dicts this code inspects. -/
def Json.hasKey (j : Json) (k : String) : Bool :=
  (j.lookup k).isSome

/-- Python `v is True` for an optional looked-up value. -/
def isTrueJson : Option Json → Bool
  | some (Json.bool true) => true
  | _ => false

/-- Python `for op in v`: list yields elements, dict yields keys, string
yields its characters; other values raise `TypeError`. -/
def iterElems : Json → Except PyError (List Json)
  | Json.arr xs => Except.ok xs
  | Json.obj kvs => Except.ok (kvs.map (fun kv => Json.str kv.1))
  | Json.str s => Except.ok (s.data.map (fun c => Json.str c.toString))
  | _ => Except.error PyError.typeError

/-- `class Operation`: one transaction record with the original payload
(`descr`) and the three extracted fields. -/
structure Operation where
  descr : Json
  libelleOp : Json
  dateOp : Json
  montantOp : Json

/-- `Operation.__init__`: extracts `libelleOperation`, `dateOperation` and
`montant` from the entry, in source order (`KeyError` when absent). -/
def Operation.fromDescr (descr : Json) : Except PyError Operation :=
  match descr.getKey "libelleOperation" with
  | Except.error e => Except.error e
  | Except.ok lib =>
    match descr.getKey "dateOperation" with
    | Except.error e => Except.error e
    | Except.ok dt =>
      match descr.getKey "montant" with
      | Except.error e => Except.error e
      | Except.ok mt => Except.ok ⟨descr, lib, dt, mt⟩

/-- Lines 206-208: `rsp = json.loads(data)`, then build one `Operation` per
element of `rsp["listeOperations"]`. -/
def decodePage (rsp : Json) : Except PyError (List Operation) :=
  match rsp.getKey "listeOperations" with
  | Except.error e => Except.error e
  | Except.ok v =>
    match iterElems v with
    | Except.error e => Except.error e
    | Except.ok entries => entries.mapM Operation.fromDescr

/-- Upper-case hex digit of a value below 16. -/
def hexDigit (n : Nat) : Char :=
  if n < 10 then Char.ofNat (48 + n) else Char.ofNat (55 + n)

/-- UTF-8 bytes of a code point. -/
def utf8Bytes (n : Nat) : List Nat :=
  if n < 128 then [n]
  else if n < 2048 then [192 + n / 64, 128 + n % 64]
  else if n < 65536 then [224 + n / 4096, 128 + (n / 64) % 64, 128 + n % 64]
  else [240 + n / 262144, 128 + (n / 4096) % 64, 128 + (n / 64) % 64, 128 + n % 64]

/-- Characters `requests.utils.quote` leaves unescaped (default `safe="/"`). -/
def quoteSafeChar (c : Char) : Bool :=
  (c.isAlpha && c.toNat < 128) || c.isDigit || c = '_' || c = '.' || c = '~' || c = '-' || c = '/'

/-- `requests.utils.quote`: percent-encodes every unsafe character's UTF-8
bytes. -/
def requestsUtilsQuote (s : String) : String :=
  s.data.foldr
    (fun c acc =>
      if quoteSafeChar c then c.toString ++ acc
      else
        ((utf8Bytes c.toNat).map
          (fun b => String.mk ['%', hexDigit (b / 16), hexDigit (b % 16)])).foldr
          (· ++ ·) acc)
    ""

/-- The session fields the retrieval code reads (`Authenticator` and its
`mock_config` are external collaborators; `fixtures` is `read_json_mock`'s
content, `none` when the fixture file is absent, which per the spec's error
taxonomy raises a not-found error). -/
structure Session where
  useMocks : Bool
  writeMocks : Bool
  useMockSuffix : String
  writeMockSuffix : String
  fixtures : String → Option Json

/-- One HTTP response: status code and (the parse of) its body text. -/
structure HttpResponse where
  status : Nat
  text : Json

/-- The query parameters of one windowed page request (the query string of
the GET URL built in lines 184-193, field order = appending order). -/
structure QueryParams where
  grandeFamilleCode : String
  compteIdx : String
  idDevise : String
  dateDebut : Int
  startIndex : Option String
  dateFin : Option Int
  count : Nat
  deriving Repr, DecidableEq

/-- The query parameters of the deferred-card request (line 88). -/
structure CardQuery where
  grandeFamilleCode : String
  compteIdx : String
  carteIdx : String
  deriving Repr, DecidableEq

/-- What is handed to `write_json_mock`: a Python `str` (raw text,
represented by its parse) or a decoded object. -/
inductive MockPayload where
  | rawText (content : Json)
  | decoded (value : Json)

/-- Observable side effects of a retrieval, in order of occurrence. -/
inductive Event where
  | fetchLive (params : QueryParams)
  | fetchCard (query : CardQuery)
  | fixtureRead (name : String)
  | mockWrite (name : String) (payload : MockPayload)
  | sleepFor (duration : Int)

/-- Environment of a windowed retrieval: the session, the `Operations`
constructor arguments, the platform's date-to-epoch-seconds conversion
(`datetime.strptime(d, "%Y-%m-%d").timestamp()`), and the remote server,
given as the response to the n-th GET with the given parameters. -/
structure Env where
  session : Session
  compteIdx : String
  grandeFamilleCode : String
  date_start : String
  date_stop : String
  epochSeconds : String → Int
  server : Nat → QueryParams → HttpResponse

/-- Environment of a deferred-card retrieval (single GET). -/
structure CardEnv where
  session : Session
  compteIdx : String
  grandeFamilleCode : String
  carteIdx : String
  server : CardQuery → HttpResponse

/-- Lines 184-193: the query parameters of one page request.  With a
continuation cursor the URL gets `startIndex` (percent-encoded) and no
`dateFin`; without one it gets `dateFin` and no `startIndex`. -/
def buildParams (env : Env) (tsDateDebut tsDateFin : Int) (startIndex : Option String)
    (limit : Nat) : QueryParams :=
  match startIndex with
  | some idx =>
    ⟨env.grandeFamilleCode, env.compteIdx, "EUR", tsDateDebut,
      some (requestsUtilsQuote idx), none, limit⟩
  | none =>
    ⟨env.grandeFamilleCode, env.compteIdx, "EUR", tsDateDebut,
      none, some tsDateFin, limit⟩

/-- Line 175: `mock_file_base` of the windowed retrieval. -/
def windowedMockBase (env : Env) : String :=
  "account-" ++ env.grandeFamilleCode ++ "-" ++ env.compteIdx ++ "_operations"

/-- Lines 211-212: `time.sleep(sleep)` runs when `sleep` is a configured
number (the `isinstance` guard; non-numeric sleeps are unrepresented). -/
def sleepEvents : Option Int → List Event
  | some d => [Event.sleepFor d]
  | none => []

/-- Lines 205-213 of one `get_operations` invocation: decode and append the
page's operations, then decide continuation; on continuation, sleep (if
configured) happens before the recursive call issues anything.  Returns the
events of this tail, the decoded operations and, when the guard of line 210
holds, the `(nextCount, nextSetStartIndex)` continuation (a non-string
cursor would make `requests.utils.quote` raise `TypeError` in the next
invocation; that failure surfaces here). -/
def operationsFinish (rsp : Json) (events : List Event) (nextCount : Nat)
    (sleep : Option Int) :
    List Event × Except PyError (List Operation × Option (Nat × String)) :=
  match decodePage rsp with
  | Except.error e => (events, Except.error e)
  | Except.ok ops =>
    if 0 < nextCount && rsp.hasKey "nextSetStartIndex" && rsp.hasKey "hasNext"
        && isTrueJson (rsp.lookup "hasNext") then
      match rsp.lookup "nextSetStartIndex" with
      | some (Json.str idx) =>
        (events ++ sleepEvents sleep, Except.ok (ops, some (nextCount, idx)))
      | _ => (events ++ sleepEvents sleep, Except.error PyError.typeError)
    else
      (events, Except.ok (ops, none))

/-- One invocation of `Operations.get_operations` (lines 150-213) without
its recursive tail: computes `nextCount`, performs the replay read or the
live GET (failing on a non-200 status), optionally records the decoded
inner list, decodes the page and reports the continuation, if any. -/
def operationsCall (env : Env) (fetchIdx : Nat) (count : Nat) (startIndex : Option String)
    (limit : Nat) (sleep : Option Int) :
    List Event × Except PyError (List Operation × Option (Nat × String)) :=
  let tsDateDebut := env.epochSeconds env.date_start * 1000
  let tsDateFin := env.epochSeconds env.date_stop * 1000
  let nextCount := count - limit
  let base := windowedMockBase env
  if env.session.useMocks then
    let name := base ++ "_" ++ env.session.useMockSuffix ++ ".json"
    match env.session.fixtures name with
    | none => ([Event.fixtureRead name], Except.error (PyError.fixtureNotFound name))
    | some content =>
      operationsFinish (Json.obj [("listeOperations", content)])
        [Event.fixtureRead name] nextCount sleep
  else
    let params := buildParams env tsDateDebut tsDateFin startIndex limit
    let r := env.server fetchIdx params
    if r.status ≠ 200 then
      ([Event.fetchLive params], Except.error (PyError.remoteError r.status r.text))
    else
      if env.session.writeMocks then
        match r.text.getKey "listeOperations" with
        | Except.error e => ([Event.fetchLive params], Except.error e)
        | Except.ok operationsData =>
          operationsFinish r.text
            [Event.fetchLive params,
              Event.mockWrite (base ++ "_" ++ env.session.writeMockSuffix ++ ".json")
                (MockPayload.decoded operationsData)]
            nextCount sleep
      else
        operationsFinish r.text [Event.fetchLive params] nextCount sleep

theorem operationsFinish_cont {rsp : Json} {events : List Event} {nextCount : Nat}
    {sleep : Option Int} {es : List Event} {ops : List Operation} {nc : Nat} {idx : String}
    (h : operationsFinish rsp events nextCount sleep
      = (es, Except.ok (ops, some (nc, idx)))) :
    nc = nextCount ∧ 0 < nextCount := by
  simp only [operationsFinish] at h
  split at h
  · injection h with h1 h2; injection h2
  · split at h
    · rename_i hguard
      split at h
      · injection h with h1 h2
        injection h2 with h3
        injection h3 with h4 h5
        injection h5 with h6
        injection h6 with h7 h8
        simp only [Bool.and_eq_true, decide_eq_true_eq] at hguard
        exact ⟨h7.symm, hguard.1.1.1⟩
      · injection h with h1 h2; injection h2
    · injection h with h1 h2
      injection h2 with h3
      injection h3 with h4 h5
      injection h5

theorem operationsCall_cont {env : Env} {fetchIdx count : Nat} {startIndex : Option String}
    {limit : Nat} {sleep : Option Int} {es : List Event} {ops : List Operation}
    {nc : Nat} {idx : String}
    (h : operationsCall env fetchIdx count startIndex limit sleep
      = (es, Except.ok (ops, some (nc, idx)))) :
    nc = count - limit ∧ 0 < count - limit := by
  simp only [operationsCall] at h
  split at h
  · split at h
    · injection h with h1 h2; injection h2
    · exact operationsFinish_cont h
  · split at h
    · injection h with h1 h2; injection h2
    · split at h
      · split at h
        · injection h with h1 h2; injection h2
        · exact operationsFinish_cont h
      · exact operationsFinish_cont h

/-- Recursion engine for the tail calls of `get_operations` (line 213),
structurally recursive on a fuel bound so that runs compute by `rfl`.  The
fuel is always instantiated with `(count + 29) / 30`; since a continuation
forces `nextCount = count - 30 > 0` (`operationsCall_cont`), the
fuel-exhausted first alternative is unreachable at that instantiation,
which `getOperationsGo_eq` proves by recovering the source's exact
recursion shape. -/
def goFuel (env : Env) : Nat → Nat → Nat → String →
    List Event × Except PyError (List Operation)
  | 0, fetchIdx, count, cursor =>
    match operationsCall env fetchIdx count (some cursor) 30 none with
    | (events, Except.error e) => (events, Except.error e)
    | (events, Except.ok (ops, _)) => (events, Except.ok ops)
  | fuel + 1, fetchIdx, count, cursor =>
    match operationsCall env fetchIdx count (some cursor) 30 none with
    | (events, Except.error e) => (events, Except.error e)
    | (events, Except.ok (ops, none)) => (events, Except.ok ops)
    | (events, Except.ok (ops, some (nc, idx))) =>
      let rest := goFuel env fuel (fetchIdx + 1) nc idx
      (events ++ rest.1, rest.2.map (fun l => ops ++ l))

/-- The recursive tail calls of `get_operations` (line 213): the recursive
invocation `self.get_operations(nextCount, rsp["nextSetStartIndex"])` leaves
`limit` and `sleep` at their defaults (`30` and `None`).  Its recursion
equation is `getOperationsGo_eq`. -/
def getOperationsGo (env : Env) (fetchIdx count : Nat) (cursor : String) :
    List Event × Except PyError (List Operation) :=
  goFuel env ((count + 29) / 30) fetchIdx count cursor

theorem getOperationsGo_eq (env : Env) (fetchIdx count : Nat) (cursor : String) :
    getOperationsGo env fetchIdx count cursor =
      match operationsCall env fetchIdx count (some cursor) 30 none with
      | (events, Except.error e) => (events, Except.error e)
      | (events, Except.ok (ops, none)) => (events, Except.ok ops)
      | (events, Except.ok (ops, some (nc, idx))) =>
        let rest := getOperationsGo env (fetchIdx + 1) nc idx
        (events ++ rest.1, rest.2.map (fun l => ops ++ l)) := by
  have hgo : getOperationsGo env fetchIdx count cursor
      = goFuel env ((count + 29) / 30) fetchIdx count cursor := rfl
  rcases hcall : operationsCall env fetchIdx count (some cursor) 30 none with ⟨es, r⟩
  rcases hf : (count + 29) / 30 with _ | f
  · rcases r with e | ⟨ops, cont⟩
    · rw [hgo, hf]; unfold goFuel; rw [hcall]
    · rcases cont with _ | ⟨nc, idx⟩
      · rw [hgo, hf]; unfold goFuel; rw [hcall]
      · exact absurd (operationsCall_cont hcall) (by omega)
  · rcases r with e | ⟨ops, cont⟩
    · rw [hgo, hf]; unfold goFuel; rw [hcall]
    · rcases cont with _ | ⟨nc, idx⟩
      · rw [hgo, hf]; unfold goFuel; rw [hcall]
      · have h2 := operationsCall_cont hcall
        have hnc : (nc + 29) / 30 = f := by omega
        have hrec : getOperationsGo env (fetchIdx + 1) nc idx
            = goFuel env f (fetchIdx + 1) nc idx := by
          have : getOperationsGo env (fetchIdx + 1) nc idx
              = goFuel env ((nc + 29) / 30) (fetchIdx + 1) nc idx := rfl
          rw [this, hnc]
        rw [hgo, hf]
        unfold goFuel
        rw [hcall]
        show (es ++ (goFuel env f (fetchIdx + 1) nc idx).1,
            Except.map (fun l => ops ++ l) (goFuel env f (fetchIdx + 1) nc idx).2)
          = (es ++ (getOperationsGo env (fetchIdx + 1) nc idx).1,
            Except.map (fun l => ops ++ l) (getOperationsGo env (fetchIdx + 1) nc idx).2)
        rw [hrec]

/-- `Operations.get_operations(count, startIndex, limit, sleep)`: the first
invocation with the caller's arguments, then the recursive tail.  Returns
the events of the whole retrieval and either the final `list_operations` or
the raised error (in which case `Operations.__init__` propagates it and the
caller obtains no object, hence no partial list). -/
def getOperations (env : Env) (count : Nat) (startIndex : Option String)
    (limit : Nat) (sleep : Option Int) :
    List Event × Except PyError (List Operation) :=
  match operationsCall env 0 count startIndex limit sleep with
  | (events, Except.error e) => (events, Except.error e)
  | (events, Except.ok (ops, none)) => (events, Except.ok ops)
  | (events, Except.ok (ops, some (nc, idx))) =>
    let rest := getOperationsGo env 1 nc idx
    (events ++ rest.1, rest.2.map (fun l => ops ++ l))

/-- `Operations.__init__(session, compteIdx, grandeFamilleCode, date_start,
date_stop, count, sleep)`: runs `get_operations(count=count, sleep=sleep)`
with `startIndex=None` and the default `limit=30`. -/
def OperationsInit (env : Env) (count : Nat) (sleep : Option Int) :
    List Event × Except PyError (List Operation) :=
  getOperations env count none 30 sleep

/-- Line 78: `mock_file_base` of the deferred-card retrieval. -/
def cardMockBase (env : CardEnv) : String :=
  "card-" ++ env.carteIdx ++ "_operations"

/-- The query parameters of the single deferred-card GET (line 88). -/
def cardQuery (env : CardEnv) : CardQuery :=
  ⟨env.grandeFamilleCode, env.compteIdx, env.carteIdx⟩

/-- The fixture name the deferred-card retrieval reads (line 82). -/
def cardUseName (env : CardEnv) : String :=
  cardMockBase env ++ "_" ++ env.session.useMockSuffix ++ ".json"

/-- The fixture name the deferred-card retrieval writes (line 96). -/
def cardWriteName (env : CardEnv) : String :=
  cardMockBase env ++ "_" ++ env.session.writeMockSuffix ++ ".json"

/-- Lines 94-100: regardless of which mode produced `data`, the mock write
of the raw `data` string when requested, then decoding into `Operation`s. -/
def deferredFinish (env : CardEnv) (events : List Event) (data : Json) :
    List Event × Except PyError (List Operation) :=
  let events :=
    if env.session.writeMocks then
      events ++ [Event.mockWrite (cardWriteName env) (MockPayload.rawText data)]
    else events
  match iterElems data with
  | Except.error e => (events, Except.error e)
  | Except.ok entries =>
    match entries.mapM Operation.fromDescr with
    | Except.error e => (events, Except.error e)
    | Except.ok ops => (events, Except.ok ops)

/-- `DeferredOperations.get_operations` (lines 67-100): one replay read or
one live GET (failing on a non-200 status with the status and body), then
the write/decode tail. -/
def deferredGetOperations (env : CardEnv) : List Event × Except PyError (List Operation) :=
  if env.session.useMocks then
    match env.session.fixtures (cardUseName env) with
    | none => ([Event.fixtureRead (cardUseName env)],
        Except.error (PyError.fixtureNotFound (cardUseName env)))
    | some content => deferredFinish env [Event.fixtureRead (cardUseName env)] content
  else
    let r := env.server (cardQuery env)
    if r.status ≠ 200 then
      ([Event.fetchCard (cardQuery env)],
        Except.error (PyError.remoteError r.status r.text))
    else
      deferredFinish env [Event.fetchCard (cardQuery env)] r.text

/-- `DeferredOperations.__init__`: runs `get_operations()` once. -/
def DeferredOperationsInit (env : CardEnv) : List Event × Except PyError (List Operation) :=
  deferredGetOperations env

/-- Number of HTTP GETs (windowed page fetches or card fetches) in a trace. -/
def countFetch : List Event → Nat
  | [] => 0
  | Event.fetchLive _ :: rest => countFetch rest + 1
  | Event.fetchCard _ :: rest => countFetch rest + 1
  | _ :: rest => countFetch rest

/-- Number of suspensions in a trace. -/
def countSleeps : List Event → Nat
  | [] => 0
  | Event.sleepFor _ :: rest => countSleeps rest + 1
  | _ :: rest => countSleeps rest

/-- The writes of a trace, in order, with their payloads. -/
def writesOf : List Event → List (String × MockPayload)
  | [] => []
  | Event.mockWrite n p :: rest => (n, p) :: writesOf rest
  | _ :: rest => writesOf rest

/-- The parameters of the first windowed page request of a trace. -/
def firstFetchParams : List Event → Option QueryParams
  | [] => none
  | Event.fetchLive p :: _ => some p
  | _ :: rest => firstFetchParams rest

/-- The query parameters one invocation sends, given its cursor and page
size (the timestamps are those of lines 163-168). -/
def pageParams (env : Env) (startIndex : Option String) (limit : Nat) : QueryParams :=
  buildParams env (env.epochSeconds env.date_start * 1000)
    (env.epochSeconds env.date_stop * 1000) startIndex limit

/-- The fixture name the windowed retrieval reads (line 179). -/
def useName (env : Env) : String :=
  windowedMockBase env ++ "_" ++ env.session.useMockSuffix ++ ".json"

/-- The fixture name the windowed retrieval writes (line 203). -/
def writeName (env : Env) : String :=
  windowedMockBase env ++ "_" ++ env.session.writeMockSuffix ++ ".json"

theorem countFetch_append (a b : List Event) :
    countFetch (a ++ b) = countFetch a + countFetch b := by
  induction a with
  | nil => simp [countFetch]
  | cons e rest ih =>
    cases e <;> simp [countFetch, ih] <;> omega

theorem countSleeps_append (a b : List Event) :
    countSleeps (a ++ b) = countSleeps a + countSleeps b := by
  induction a with
  | nil => simp [countSleeps]
  | cons e rest ih =>
    cases e <;> simp [countSleeps, ih] <;> omega

theorem writesOf_append (a b : List Event) :
    writesOf (a ++ b) = writesOf a ++ writesOf b := by
  induction a with
  | nil => simp [writesOf]
  | cons e rest ih =>
    cases e <;> simp [writesOf, ih]

theorem countFetch_sleepEvents (sleep : Option Int) : countFetch (sleepEvents sleep) = 0 := by
  cases sleep <;> rfl

theorem writesOf_sleepEvents (sleep : Option Int) : writesOf (sleepEvents sleep) = [] := by
  cases sleep <;> rfl

/-- One step of `getOperationsGo` when the invocation raised. -/
theorem go_step_err {env : Env} {i c : Nat} {cur : String} {es : List Event} {e : PyError}
    (h : operationsCall env i c (some cur) 30 none = (es, Except.error e)) :
    getOperationsGo env i c cur = (es, Except.error e) := by
  rw [getOperationsGo_eq, h]

/-- One step of `getOperationsGo` when the invocation did not continue. -/
theorem go_step_stop {env : Env} {i c : Nat} {cur : String} {es : List Event}
    {ops : List Operation}
    (h : operationsCall env i c (some cur) 30 none = (es, Except.ok (ops, none))) :
    getOperationsGo env i c cur = (es, Except.ok ops) := by
  rw [getOperationsGo_eq, h]

/-- One step of `getOperationsGo` when the invocation continued. -/
theorem go_step_cont {env : Env} {i c : Nat} {cur : String} {es : List Event}
    {ops : List Operation} {nc : Nat} {idx : String}
    (h : operationsCall env i c (some cur) 30 none = (es, Except.ok (ops, some (nc, idx)))) :
    getOperationsGo env i c cur
      = (es ++ (getOperationsGo env (i + 1) nc idx).1,
        (getOperationsGo env (i + 1) nc idx).2.map (fun l => ops ++ l)) := by
  rw [getOperationsGo_eq, h]

/-- First step of `getOperations` when the first invocation raised. -/
theorem getOperations_step_err {env : Env} {c : Nat} {si : Option String} {l : Nat}
    {sl : Option Int} {es : List Event} {e : PyError}
    (h : operationsCall env 0 c si l sl = (es, Except.error e)) :
    getOperations env c si l sl = (es, Except.error e) := by
  unfold getOperations; rw [h]

/-- First step of `getOperations` when the first invocation did not continue. -/
theorem getOperations_step_stop {env : Env} {c : Nat} {si : Option String} {l : Nat}
    {sl : Option Int} {es : List Event} {ops : List Operation}
    (h : operationsCall env 0 c si l sl = (es, Except.ok (ops, none))) :
    getOperations env c si l sl = (es, Except.ok ops) := by
  unfold getOperations; rw [h]

theorem operationsFinish_fst (rsp : Json) (evs : List Event) (nc : Nat) (sl : Option Int) :
    (operationsFinish rsp evs nc sl).1 = evs
      ∨ (operationsFinish rsp evs nc sl).1 = evs ++ sleepEvents sl := by
  unfold operationsFinish
  split
  · exact Or.inl rfl
  · split
    · split
      · exact Or.inr rfl
      · exact Or.inr rfl
    · exact Or.inl rfl

theorem countFetch_finish (rsp : Json) (evs : List Event) (nc : Nat) (sl : Option Int) :
    countFetch (operationsFinish rsp evs nc sl).1 = countFetch evs := by
  rcases operationsFinish_fst rsp evs nc sl with h | h <;>
    simp [h, countFetch_append, countFetch_sleepEvents]

theorem writesOf_finish (rsp : Json) (evs : List Event) (nc : Nat) (sl : Option Int) :
    writesOf (operationsFinish rsp evs nc sl).1 = writesOf evs := by
  rcases operationsFinish_fst rsp evs nc sl with h | h <;>
    simp [h, writesOf_append, writesOf_sleepEvents]

/-- The result component of `operationsFinish` does not depend on the
events accumulated so far. -/
theorem operationsFinish_snd_evs (rsp : Json) (evs : List Event) (nc : Nat) (sl : Option Int) :
    (operationsFinish rsp evs nc sl).2 = (operationsFinish rsp [] nc sl).2 := by
  unfold operationsFinish
  split
  · rfl
  · split
    · split
      · rfl
      · rfl
    · rfl

theorem operationsFinish_snd_cont {rsp : Json} (evs : List Event) {nc : Nat} {sl : Option Int}
    {ops : List Operation} {s : String}
    (hdec : decodePage rsp = Except.ok ops)
    (hnext : rsp.lookup "nextSetStartIndex" = some (Json.str s))
    (hhn : rsp.lookup "hasNext" = some (Json.bool true))
    (hnc : 0 < nc) :
    (operationsFinish rsp evs nc sl).2 = Except.ok (ops, some (nc, s)) := by
  have hguard : (0 < nc && rsp.hasKey "nextSetStartIndex" && rsp.hasKey "hasNext"
      && isTrueJson (rsp.lookup "hasNext")) = true := by
    simp [Json.hasKey, hnext, hhn, isTrueJson, hnc]
  simp only [operationsFinish, hdec]
  rw [if_pos hguard]
  simp only [hnext]

theorem operationsFinish_snd_stop {rsp : Json} (evs : List Event) {nc : Nat} {sl : Option Int}
    {ops : List Operation}
    (hdec : decodePage rsp = Except.ok ops)
    (hguard : (0 < nc && rsp.hasKey "nextSetStartIndex" && rsp.hasKey "hasNext"
      && isTrueJson (rsp.lookup "hasNext")) = false) :
    (operationsFinish rsp evs nc sl).2 = Except.ok (ops, none) := by
  simp only [operationsFinish, hdec]
  rw [if_neg (by simp [hguard])]

/-- A continuation is impossible when `nextSetStartIndex` is absent, and
then no sleep happens either; used for the replay envelope. -/
theorem operationsFinish_noNext {rsp : Json} (evs : List Event) (nc : Nat) (sl : Option Int)
    (hnk : rsp.hasKey "nextSetStartIndex" = false) :
    (operationsFinish rsp evs nc sl).1 = evs
      ∧ ∀ (ops : List Operation) (ncr : Nat) (idx : String),
        (operationsFinish rsp evs nc sl).2 ≠ Except.ok (ops, some (ncr, idx)) := by
  have hguard : (0 < nc && rsp.hasKey "nextSetStartIndex" && rsp.hasKey "hasNext"
      && isTrueJson (rsp.lookup "hasNext")) = false := by
    simp [hnk]
  unfold operationsFinish
  split
  · exact ⟨rfl, by intro ops ncr idx h; injection h⟩
  · rw [if_neg (by simp [hguard])]
    refine ⟨rfl, ?_⟩
    intro ops ncr idx h
    injection h with h1
    injection h1 with h2 h3
    injection h3

/-- `operationsCall` in live mode reduces to the live branch. -/
theorem operationsCall_live (env : Env) (i c : Nat) (si : Option String) (l : Nat)
    (sl : Option Int) (hm : env.session.useMocks = false) :
    operationsCall env i c si l sl =
      (if (env.server i (pageParams env si l)).status ≠ 200 then
        ([Event.fetchLive (pageParams env si l)],
          Except.error (PyError.remoteError (env.server i (pageParams env si l)).status
            (env.server i (pageParams env si l)).text))
      else
        if env.session.writeMocks then
          match (env.server i (pageParams env si l)).text.getKey "listeOperations" with
          | Except.error e => ([Event.fetchLive (pageParams env si l)], Except.error e)
          | Except.ok operationsData =>
            operationsFinish (env.server i (pageParams env si l)).text
              [Event.fetchLive (pageParams env si l),
                Event.mockWrite (writeName env) (MockPayload.decoded operationsData)]
              (c - l) sl
        else
          operationsFinish (env.server i (pageParams env si l)).text
            [Event.fetchLive (pageParams env si l)] (c - l) sl) := by
  unfold operationsCall
  rw [hm]
  rfl

/-- `operationsCall` in replay mode reduces to the replay branch. -/
theorem operationsCall_mock (env : Env) (i c : Nat) (si : Option String) (l : Nat)
    (sl : Option Int) (hm : env.session.useMocks = true) :
    operationsCall env i c si l sl =
      (match env.session.fixtures (useName env) with
      | none => ([Event.fixtureRead (useName env)],
          Except.error (PyError.fixtureNotFound (useName env)))
      | some content =>
        operationsFinish (Json.obj [("listeOperations", content)])
          [Event.fixtureRead (useName env)] (c - l) sl) := by
  unfold operationsCall
  rw [hm]
  rfl

/-- Live mode: every invocation issues exactly one GET, whatever the
response was. -/
theorem call_live_countFetch (env : Env) (i c : Nat) (si : Option String) (l : Nat)
    (sl : Option Int) (hm : env.session.useMocks = false) :
    countFetch (operationsCall env i c si l sl).1 = 1 := by
  simp only [operationsCall_live env i c si l sl hm]
  split
  · rfl
  · split
    · split
      · rfl
      · rw [countFetch_finish]; rfl
    · rw [countFetch_finish]; rfl

/-- Live mode, non-success status: the invocation is exactly one GET
followed by the error carrying the status and the body. -/
theorem call_live_badStatus (env : Env) (i c : Nat) (si : Option String) (l : Nat)
    (sl : Option Int) (hm : env.session.useMocks = false)
    (hst : (env.server i (pageParams env si l)).status ≠ 200) :
    operationsCall env i c si l sl =
      ([Event.fetchLive (pageParams env si l)],
        Except.error (PyError.remoteError (env.server i (pageParams env si l)).status
          (env.server i (pageParams env si l)).text)) := by
  rw [operationsCall_live env i c si l sl hm, if_pos hst]

theorem decodePage_getKey {rsp : Json} {ops : List Operation}
    (h : decodePage rsp = Except.ok ops) :
    ∃ v, rsp.getKey "listeOperations" = Except.ok v := by
  unfold decodePage at h
  split at h
  · injection h
  · rename_i v hv
    exact ⟨v, hv⟩

/-- Live mode, success: the result component is that of `operationsFinish`
on the response body. -/
theorem call_live_snd (env : Env) (i c : Nat) (si : Option String) (l : Nat)
    (sl : Option Int) {ops : List Operation} (hm : env.session.useMocks = false)
    (hst : (env.server i (pageParams env si l)).status = 200)
    (hdec : decodePage (env.server i (pageParams env si l)).text = Except.ok ops) :
    (operationsCall env i c si l sl).2
      = (operationsFinish (env.server i (pageParams env si l)).text [] (c - l) sl).2 := by
  simp only [operationsCall_live env i c si l sl hm]
  rw [if_neg (not_not_intro hst)]
  by_cases hw : env.session.writeMocks = true
  · rw [if_pos hw]
    obtain ⟨v, hv⟩ := decodePage_getKey hdec
    simp only [hv]
    exact operationsFinish_snd_evs _ _ _ _
  · rw [if_neg hw]
    exact operationsFinish_snd_evs _ _ _ _

/-- First step of `getOperations` when the first invocation continued. -/
theorem getOperations_step_cont {env : Env} {c : Nat} {si : Option String} {l : Nat}
    {sl : Option Int} {es : List Event} {ops : List Operation} {nc : Nat} {idx : String}
    (h : operationsCall env 0 c si l sl = (es, Except.ok (ops, some (nc, idx)))) :
    getOperations env c si l sl
      = (es ++ (getOperationsGo env 1 nc idx).1,
        (getOperationsGo env 1 nc idx).2.map (fun l => ops ++ l)) := by
  unfold getOperations; rw [h]

theorem go_step_cont_fst {env : Env} {i c : Nat} {cur : String} {es : List Event}
    {ops : List Operation} {nc : Nat} {idx : String}
    (h : operationsCall env i c (some cur) 30 none = (es, Except.ok (ops, some (nc, idx)))) :
    (getOperationsGo env i c cur).1 = es ++ (getOperationsGo env (i + 1) nc idx).1 := by
  rw [go_step_cont h]

theorem go_step_cont_snd {env : Env} {i c : Nat} {cur : String} {es : List Event}
    {ops : List Operation} {nc : Nat} {idx : String}
    (h : operationsCall env i c (some cur) 30 none = (es, Except.ok (ops, some (nc, idx)))) :
    (getOperationsGo env i c cur).2
      = (getOperationsGo env (i + 1) nc idx).2.map (fun l => ops ++ l) := by
  rw [go_step_cont h]

theorem getOperations_step_cont_fst {env : Env} {c : Nat} {si : Option String} {l : Nat}
    {sl : Option Int} {es : List Event} {ops : List Operation} {nc : Nat} {idx : String}
    (h : operationsCall env 0 c si l sl = (es, Except.ok (ops, some (nc, idx)))) :
    (getOperations env c si l sl).1 = es ++ (getOperationsGo env 1 nc idx).1 := by
  rw [getOperations_step_cont h]

theorem getOperations_step_cont_snd {env : Env} {c : Nat} {si : Option String} {l : Nat}
    {sl : Option Int} {es : List Event} {ops : List Operation} {nc : Nat} {idx : String}
    (h : operationsCall env 0 c si l sl = (es, Except.ok (ops, some (nc, idx)))) :
    (getOperations env c si l sl).2
      = (getOperationsGo env 1 nc idx).2.map (fun l => ops ++ l) := by
  rw [getOperations_step_cont h]

/-- Live mode, success, continuing response, more requested: the invocation
result is the page's operations plus the continuation `(count - limit,
cursor)`. -/
theorem call_live_cont (env : Env) (i c : Nat) (si : Option String) (l : Nat)
    (sl : Option Int) {ops : List Operation} {s : String}
    (hm : env.session.useMocks = false)
    (hst : (env.server i (pageParams env si l)).status = 200)
    (hdec : decodePage (env.server i (pageParams env si l)).text = Except.ok ops)
    (hnext : (env.server i (pageParams env si l)).text.lookup "nextSetStartIndex"
      = some (Json.str s))
    (hhn : (env.server i (pageParams env si l)).text.lookup "hasNext"
      = some (Json.bool true))
    (hcl : l < c) :
    (operationsCall env i c si l sl).2 = Except.ok (ops, some (c - l, s)) := by
  rw [call_live_snd env i c si l sl hm hst hdec]
  exact operationsFinish_snd_cont [] hdec hnext hhn (by omega)

/-- Live mode, success, but the line-210 guard fails: no continuation. -/
theorem call_live_stop (env : Env) (i c : Nat) (si : Option String) (l : Nat)
    (sl : Option Int) {ops : List Operation}
    (hm : env.session.useMocks = false)
    (hst : (env.server i (pageParams env si l)).status = 200)
    (hdec : decodePage (env.server i (pageParams env si l)).text = Except.ok ops)
    (hguard : (0 < c - l && (env.server i (pageParams env si l)).text.hasKey "nextSetStartIndex"
      && (env.server i (pageParams env si l)).text.hasKey "hasNext"
      && isTrueJson ((env.server i (pageParams env si l)).text.lookup "hasNext")) = false) :
    (operationsCall env i c si l sl).2 = Except.ok (ops, none) := by
  rw [call_live_snd env i c si l sl hm hst hdec]
  exact operationsFinish_snd_stop [] hdec hguard

/-- Live mode with the write-sink on: one write per successful fetch, of
the decoded inner list, under the write-suffix fixture name. -/
theorem call_live_writes_on (env : Env) (i c : Nat) (si : Option String) (l : Nat)
    (sl : Option Int) {v : Json}
    (hm : env.session.useMocks = false) (hw : env.session.writeMocks = true)
    (hst : (env.server i (pageParams env si l)).status = 200)
    (hkey : (env.server i (pageParams env si l)).text.getKey "listeOperations"
      = Except.ok v) :
    writesOf (operationsCall env i c si l sl).1
      = [(writeName env, MockPayload.decoded v)] := by
  simp only [operationsCall_live env i c si l sl hm]
  rw [if_neg (not_not_intro hst), if_pos hw]
  simp only [hkey]
  rw [writesOf_finish]
  rfl

/-- Live mode with the write-sink off: no write happens. -/
theorem call_live_writes_off (env : Env) (i c : Nat) (si : Option String) (l : Nat)
    (sl : Option Int)
    (hm : env.session.useMocks = false) (hw : env.session.writeMocks = false) :
    writesOf (operationsCall env i c si l sl).1 = [] := by
  simp only [operationsCall_live env i c si l sl hm]
  split
  · rfl
  · rw [if_neg (by simp [hw])]
    rw [writesOf_finish]
    rfl

/-- Replay mode: the invocation is exactly one fixture read (no GET, no
write, no sleep) and can never continue, because the replay envelope has
only the `listeOperations` key. -/
theorem call_mock_events (env : Env) (i c : Nat) (si : Option String) (l : Nat)
    (sl : Option Int) (hm : env.session.useMocks = true) :
    (operationsCall env i c si l sl).1 = [Event.fixtureRead (useName env)]
      ∧ ∀ (ops : List Operation) (ncr : Nat) (idx : String),
        (operationsCall env i c si l sl).2 ≠ Except.ok (ops, some (ncr, idx)) := by
  simp only [operationsCall_mock env i c si l sl hm]
  split
  · exact ⟨rfl, by intro ops ncr idx h; injection h⟩
  · exact operationsFinish_noNext _ _ _ rfl

/-- The response-side part of the line-210 continuation guard. -/
def continues (rsp : Json) : Bool :=
  rsp.hasKey "nextSetStartIndex" && rsp.hasKey "hasNext" && isTrueJson (rsp.lookup "hasNext")

theorem guard_eq_continues (rsp : Json) (nc : Nat) :
    (0 < nc && rsp.hasKey "nextSetStartIndex" && rsp.hasKey "hasNext"
      && isTrueJson (rsp.lookup "hasNext")) = (decide (0 < nc) && continues rsp) := by
  simp [continues, Bool.and_assoc]

theorem isTrueJson_eq {o : Option Json} (h : isTrueJson o = true) :
    o = some (Json.bool true) := by
  cases o with
  | none => simp [isTrueJson] at h
  | some j =>
    cases j with
    | bool b => cases b with
      | false => simp [isTrueJson] at h
      | true => rfl
    | null => simp [isTrueJson] at h
    | num n => simp [isTrueJson] at h
    | str s => simp [isTrueJson] at h
    | arr xs => simp [isTrueJson] at h
    | obj kvs => simp [isTrueJson] at h

/-- A server whose every response is successful, decodable, and reports a
continuation with a string cursor. -/
def alwaysCont (env : Env) : Prop :=
  ∀ (n : Nat) (p : QueryParams),
    (env.server n p).status = 200
    ∧ (∃ ops, decodePage (env.server n p).text = Except.ok ops)
    ∧ (∃ s, (env.server n p).text.lookup "nextSetStartIndex" = some (Json.str s))
    ∧ (env.server n p).text.lookup "hasNext" = some (Json.bool true)

/-- Tail-call fetch count under an always-continuing server: exactly
`ceil(count / 30)` GETs, because every recursive invocation uses the
default page size 30. -/
theorem go_countFetch_allCont (env : Env) (hm : env.session.useMocks = false)
    (hgood : alwaysCont env) :
    ∀ c, 0 < c → ∀ (i : Nat) (cur : String),
      countFetch (getOperationsGo env i c cur).1 = (c + 29) / 30 := by
  intro c
  induction c using Nat.strong_induction_on with
  | _ c ih =>
    intro hc i cur
    obtain ⟨hst, ⟨ops, hdec⟩, ⟨s, hnext⟩, hhn⟩ := hgood i (pageParams env (some cur) 30)
    rcases hx : operationsCall env i c (some cur) 30 none with ⟨es, r⟩
    have hfc : countFetch es = 1 := by
      have h1 := call_live_countFetch env i c (some cur) 30 none hm
      rw [hx] at h1
      exact h1
    by_cases h30 : 30 < c
    · have h2 : r = Except.ok (ops, some (c - 30, s)) := by
        have h3 := call_live_cont env i c (some cur) 30 none hm hst hdec hnext hhn h30
        rw [hx] at h3
        exact h3
      subst h2
      rw [go_step_cont_fst hx, countFetch_append, hfc,
        ih (c - 30) (by omega) (by omega) (i + 1) s]
      omega
    · have h2 : r = Except.ok (ops, none) := by
        have hz : c - 30 = 0 := by omega
        have h3 := call_live_stop env i c (some cur) 30 none hm hst hdec (by simp [hz])
        rw [hx] at h3
        exact h3
      subst h2
      rw [go_step_stop hx]
      show countFetch es = (c + 29) / 30
      omega

/-- Every response before index `K` is successful, decodable, and
continuing with a string cursor. -/
def contBelow (env : Env) (K : Nat) : Prop :=
  ∀ (n : Nat) (p : QueryParams), n < K →
    (env.server n p).status = 200
    ∧ (∃ ops, decodePage (env.server n p).text = Except.ok ops)
    ∧ (∃ s, (env.server n p).text.lookup "nextSetStartIndex" = some (Json.str s))
    ∧ (env.server n p).text.lookup "hasNext" = some (Json.bool true)

/-- The response at index `K` is successful and decodable but signals
exhaustion (cursor absent, or `hasNext` absent or not `True`). -/
def stopAt (env : Env) (K : Nat) : Prop :=
  ∀ p : QueryParams,
    (env.server K p).status = 200
    ∧ (∃ ops, decodePage (env.server K p).text = Except.ok ops)
    ∧ continues (env.server K p).text = false

/-- Tail-call fetch count when the server signals exhaustion at fetch `K`:
the engine stops at whichever comes first, the count bound or the server's
stop. -/
theorem go_countFetch_stop (env : Env) (K : Nat) (hm : env.session.useMocks = false)
    (hcont : contBelow env K) (hstop : stopAt env K) :
    ∀ c, 0 < c → ∀ (i : Nat) (cur : String), i ≤ K →
      countFetch (getOperationsGo env i c cur).1 = min ((c + 29) / 30) (K + 1 - i) := by
  intro c
  induction c using Nat.strong_induction_on with
  | _ c ih =>
    intro hc i cur hiK
    rcases hx : operationsCall env i c (some cur) 30 none with ⟨es, r⟩
    have hfc : countFetch es = 1 := by
      have h1 := call_live_countFetch env i c (some cur) 30 none hm
      rw [hx] at h1
      exact h1
    by_cases hik : i = K
    · subst hik
      obtain ⟨hst, ⟨ops, hdec⟩, hstopc⟩ := hstop (pageParams env (some cur) 30)
      have h2 : r = Except.ok (ops, none) := by
        have h3 := call_live_stop env i c (some cur) 30 none hm hst hdec
          (by rw [guard_eq_continues, hstopc]; simp)
        rw [hx] at h3
        exact h3
      subst h2
      rw [go_step_stop hx]
      show countFetch es = min ((c + 29) / 30) (i + 1 - i)
      omega
    · obtain ⟨hst, ⟨ops, hdec⟩, ⟨s, hnext⟩, hhn⟩ :=
        hcont i (pageParams env (some cur) 30) (by omega)
      by_cases h30 : 30 < c
      · have h2 : r = Except.ok (ops, some (c - 30, s)) := by
          have h3 := call_live_cont env i c (some cur) 30 none hm hst hdec hnext hhn h30
          rw [hx] at h3
          exact h3
        subst h2
        rw [go_step_cont_fst hx, countFetch_append, hfc,
          ih (c - 30) (by omega) (by omega) (i + 1) s (by omega)]
        omega
      · have h2 : r = Except.ok (ops, none) := by
          have hz : c - 30 = 0 := by omega
          have h3 := call_live_stop env i c (some cur) 30 none hm hst hdec (by simp [hz])
          rw [hx] at h3
          exact h3
        subst h2
        rw [go_step_stop hx]
        show countFetch es = min ((c + 29) / 30) (K + 1 - i)
        omega

/-- Whole-retrieval fetch count under an always-continuing server: one
fetch with the caller's page size, then ceil((C-P)/30) more, because the
recursive invocations revert to the default page size 30. -/
theorem getOperations_countFetch_allCont (env : Env) (hm : env.session.useMocks = false)
    (hgood : alwaysCont env) (C P : Nat) (si : Option String) (sl : Option Int) :
    countFetch (getOperations env C si P sl).1
      = if C ≤ P then 1 else 1 + ((C - P) + 29) / 30 := by
  obtain ⟨hst, ⟨ops, hdec⟩, ⟨s, hnext⟩, hhn⟩ := hgood 0 (pageParams env si P)
  rcases hx : operationsCall env 0 C si P sl with ⟨es, r⟩
  have hfc : countFetch es = 1 := by
    have h1 := call_live_countFetch env 0 C si P sl hm
    rw [hx] at h1
    exact h1
  by_cases hCP : C ≤ P
  · have h2 : r = Except.ok (ops, none) := by
      have hz : C - P = 0 := by omega
      have h3 := call_live_stop env 0 C si P sl hm hst hdec (by simp [hz])
      rw [hx] at h3
      exact h3
    subst h2
    rw [getOperations_step_stop hx, if_pos hCP]
    exact hfc
  · have h2 : r = Except.ok (ops, some (C - P, s)) := by
      have h3 := call_live_cont env 0 C si P sl hm hst hdec hnext hhn (by omega)
      rw [hx] at h3
      exact h3
    subst h2
    rw [getOperations_step_cont_fst hx, countFetch_append, hfc,
      go_countFetch_allCont env hm hgood (C - P) (by omega) 1 s, if_neg hCP]

/-- Whole-retrieval fetch count when the server signals exhaustion at
fetch `K`: the engine stops at whichever bound comes first. -/
theorem getOperations_countFetch_stop (env : Env) (K : Nat)
    (hm : env.session.useMocks = false)
    (hcont : contBelow env K) (hstop : stopAt env K) (C P : Nat) (si : Option String)
    (sl : Option Int) :
    countFetch (getOperations env C si P sl).1
      = min (if C ≤ P then 1 else 1 + ((C - P) + 29) / 30) (K + 1) := by
  rcases hx : operationsCall env 0 C si P sl with ⟨es, r⟩
  have hfc : countFetch es = 1 := by
    have h1 := call_live_countFetch env 0 C si P sl hm
    rw [hx] at h1
    exact h1
  by_cases hK : K = 0
  · subst hK
    obtain ⟨hst, ⟨ops, hdec⟩, hstopc⟩ := hstop (pageParams env si P)
    have h2 : r = Except.ok (ops, none) := by
      have h3 := call_live_stop env 0 C si P sl hm hst hdec
        (by rw [guard_eq_continues, hstopc]; simp)
      rw [hx] at h3
      exact h3
    subst h2
    rw [getOperations_step_stop hx]
    show countFetch es = min (if C ≤ P then 1 else 1 + ((C - P) + 29) / 30) 1
    split <;> omega
  · obtain ⟨hst, ⟨ops, hdec⟩, ⟨s, hnext⟩, hhn⟩ :=
      hcont 0 (pageParams env si P) (by omega)
    by_cases hCP : C ≤ P
    · have h2 : r = Except.ok (ops, none) := by
        have hz : C - P = 0 := by omega
        have h3 := call_live_stop env 0 C si P sl hm hst hdec (by simp [hz])
        rw [hx] at h3
        exact h3
      subst h2
      rw [getOperations_step_stop hx, if_pos hCP]
      show countFetch es = min 1 (K + 1)
      omega
    · have h2 : r = Except.ok (ops, some (C - P, s)) := by
        have h3 := call_live_cont env 0 C si P sl hm hst hdec hnext hhn (by omega)
        rw [hx] at h3
        exact h3
      subst h2
      rw [getOperations_step_cont_fst hx, countFetch_append, hfc,
        go_countFetch_stop env K hm hcont hstop (C - P) (by omega) 1 s (by omega),
        if_neg hCP]
      omega

/-- A server whose every response is successful and decodes to the per-page
operation lists `O`, with a well-formed (string or absent) cursor. -/
def pagesOk (env : Env) (O : Nat → List Operation) : Prop :=
  ∀ (n : Nat) (p : QueryParams),
    (env.server n p).status = 200
    ∧ decodePage (env.server n p).text = Except.ok (O n)
    ∧ ((∃ s, (env.server n p).text.lookup "nextSetStartIndex" = some (Json.str s))
      ∨ (env.server n p).text.lookup "nextSetStartIndex" = none)

theorem join_range_shift (O : Nat → List Operation) (i k : Nat) :
    O i ++ ((List.range k).map (fun j => O (i + 1 + j))).flatten
      = ((List.range (1 + k)).map (fun j => O (i + j))).flatten := by
  rw [Nat.add_comm 1 k, List.range_succ_eq_map]
  simp only [List.map_cons, List.flatten_cons, List.map_map, Nat.add_zero]
  have hfe : ((fun j => O (i + j)) ∘ Nat.succ) = fun j => O (i + 1 + j) := by
    funext j
    simp only [Function.comp_apply]
    congr 1
    omega
  rw [hfe]

/-- Tail calls return exactly the concatenation, in fetch order, of the
decoded pages. -/
theorem go_pages (env : Env) (O : Nat → List Operation) (hm : env.session.useMocks = false)
    (hOk : pagesOk env O) :
    ∀ c (i : Nat) (cur : String),
      (getOperationsGo env i c cur).2
        = Except.ok (((List.range (countFetch (getOperationsGo env i c cur).1)).map
            (fun j => O (i + j))).flatten) := by
  intro c
  induction c using Nat.strong_induction_on with
  | _ c ih =>
    intro i cur
    obtain ⟨hst, hdec, hcursor⟩ := hOk i (pageParams env (some cur) 30)
    rcases hx : operationsCall env i c (some cur) 30 none with ⟨es, r⟩
    have hfc : countFetch es = 1 := by
      have h1 := call_live_countFetch env i c (some cur) 30 none hm
      rw [hx] at h1
      exact h1
    by_cases hg : (0 < c - 30
        && (env.server i (pageParams env (some cur) 30)).text.hasKey "nextSetStartIndex"
        && (env.server i (pageParams env (some cur) 30)).text.hasKey "hasNext"
        && isTrueJson ((env.server i (pageParams env (some cur) 30)).text.lookup "hasNext"))
        = true
    · rw [guard_eq_continues] at hg
      simp only [Bool.and_eq_true, decide_eq_true_eq] at hg
      obtain ⟨hnc, hcontt⟩ := hg
      unfold continues at hcontt
      simp only [Bool.and_eq_true] at hcontt
      obtain ⟨⟨hk1, hk2⟩, htr⟩ := hcontt
      have hhn := isTrueJson_eq htr
      obtain ⟨s, hnext⟩ :
          ∃ s, (env.server i (pageParams env (some cur) 30)).text.lookup "nextSetStartIndex"
            = some (Json.str s) := by
        rcases hcursor with h | h
        · exact h
        · unfold Json.hasKey at hk1
          rw [h] at hk1
          simp at hk1
      have h2 : r = Except.ok (O i, some (c - 30, s)) := by
        have h3 := call_live_cont env i c (some cur) 30 none hm hst hdec hnext hhn (by omega)
        rw [hx] at h3
        exact h3
      subst h2
      rw [go_step_cont_snd hx, ih (c - 30) (by omega) (i + 1) s,
        go_step_cont_fst hx, countFetch_append, hfc]
      simp only [Except.map]
      rw [join_range_shift]
    · have hgf : (0 < c - 30
          && (env.server i (pageParams env (some cur) 30)).text.hasKey "nextSetStartIndex"
          && (env.server i (pageParams env (some cur) 30)).text.hasKey "hasNext"
          && isTrueJson ((env.server i (pageParams env (some cur) 30)).text.lookup "hasNext"))
          = false := by
        exact Bool.not_eq_true _ ▸ eq_false_of_ne_true hg
      have h2 : r = Except.ok (O i, none) := by
        have h3 := call_live_stop env i c (some cur) 30 none hm hst hdec hgf
        rw [hx] at h3
        exact h3
      subst h2
      rw [go_step_stop hx]
      show Except.ok (O i)
        = Except.ok (((List.range (countFetch es)).map (fun j => O (i + j))).flatten)
      rw [hfc]
      simp [List.range_succ]

/-- The whole retrieval returns exactly the concatenation, in fetch order,
of the decoded pages: nothing dropped, duplicated, or reordered. -/
theorem getOperations_pages (env : Env) (O : Nat → List Operation)
    (hm : env.session.useMocks = false) (hOk : pagesOk env O) (C P : Nat)
    (si : Option String) (sl : Option Int) :
    (getOperations env C si P sl).2
      = Except.ok (((List.range (countFetch (getOperations env C si P sl).1)).map O).flatten) := by
  obtain ⟨hst, hdec, hcursor⟩ := hOk 0 (pageParams env si P)
  rcases hx : operationsCall env 0 C si P sl with ⟨es, r⟩
  have hfc : countFetch es = 1 := by
    have h1 := call_live_countFetch env 0 C si P sl hm
    rw [hx] at h1
    exact h1
  by_cases hg : (0 < C - P
      && (env.server 0 (pageParams env si P)).text.hasKey "nextSetStartIndex"
      && (env.server 0 (pageParams env si P)).text.hasKey "hasNext"
      && isTrueJson ((env.server 0 (pageParams env si P)).text.lookup "hasNext")) = true
  · rw [guard_eq_continues] at hg
    simp only [Bool.and_eq_true, decide_eq_true_eq] at hg
    obtain ⟨hnc, hcontt⟩ := hg
    unfold continues at hcontt
    simp only [Bool.and_eq_true] at hcontt
    obtain ⟨⟨hk1, hk2⟩, htr⟩ := hcontt
    have hhn := isTrueJson_eq htr
    obtain ⟨s, hnext⟩ :
        ∃ s, (env.server 0 (pageParams env si P)).text.lookup "nextSetStartIndex"
          = some (Json.str s) := by
      rcases hcursor with h | h
      · exact h
      · unfold Json.hasKey at hk1
        rw [h] at hk1
        simp at hk1
    have h2 : r = Except.ok (O 0, some (C - P, s)) := by
      have h3 := call_live_cont env 0 C si P sl hm hst hdec hnext hhn (by omega)
      rw [hx] at h3
      exact h3
    subst h2
    rw [getOperations_step_cont_snd hx, go_pages env O hm hOk (C - P) 1 s,
      getOperations_step_cont_fst hx, countFetch_append, hfc]
    simp only [Except.map]
    have hshift := join_range_shift O 0 (countFetch (getOperationsGo env 1 (C - P) s).1)
    simp only [Nat.zero_add] at hshift
    rw [hshift]
  · have hgf : (0 < C - P
        && (env.server 0 (pageParams env si P)).text.hasKey "nextSetStartIndex"
        && (env.server 0 (pageParams env si P)).text.hasKey "hasNext"
        && isTrueJson ((env.server 0 (pageParams env si P)).text.lookup "hasNext"))
        = false := by
      exact Bool.not_eq_true _ ▸ eq_false_of_ne_true hg
    have h2 : r = Except.ok (O 0, none) := by
      have h3 := call_live_stop env 0 C si P sl hm hst hdec hgf
      rw [hx] at h3
      exact h3
    subst h2
    rw [getOperations_step_stop hx]
    show Except.ok (O 0) = Except.ok (((List.range (countFetch es)).map O).flatten)
    rw [hfc]
    simp [List.range_succ]

/-- In live mode the trace opens with the GET built from the invocation's
cursor and page size. -/
theorem call_live_head (env : Env) (i c : Nat) (si : Option String) (l : Nat)
    (sl : Option Int) (hm : env.session.useMocks = false) :
    ∃ t, (operationsCall env i c si l sl).1
      = Event.fetchLive (pageParams env si l) :: t := by
  simp only [operationsCall_live env i c si l sl hm]
  split
  · exact ⟨[], rfl⟩
  · split
    · split
      · exact ⟨[], rfl⟩
      · rcases operationsFinish_fst (env.server i (pageParams env si l)).text
          [Event.fetchLive (pageParams env si l),
            Event.mockWrite (writeName env) (MockPayload.decoded _)] (c - l) sl with h | h
        · exact ⟨_, h⟩
        · exact ⟨_, h⟩
    · rcases operationsFinish_fst (env.server i (pageParams env si l)).text
        [Event.fetchLive (pageParams env si l)] (c - l) sl with h | h
      · exact ⟨_, h⟩
      · exact ⟨_, h⟩

/-- In live mode the first page request of the whole retrieval carries the
caller's cursor and page size. -/
theorem getOperations_firstFetch (env : Env) (c : Nat) (si : Option String) (l : Nat)
    (sl : Option Int) (hm : env.session.useMocks = false) :
    firstFetchParams (getOperations env c si l sl).1 = some (pageParams env si l) := by
  rcases hx : operationsCall env 0 c si l sl with ⟨es, r⟩
  obtain ⟨t, ht⟩ := call_live_head env 0 c si l sl hm
  rw [hx] at ht
  have hes : es = Event.fetchLive (pageParams env si l) :: t := ht
  subst hes
  rcases r with e | ⟨ops, cont⟩
  · rw [getOperations_step_err hx]; rfl
  · rcases cont with _ | ⟨nc, idx⟩
    · rw [getOperations_step_stop hx]; rfl
    · rw [getOperations_step_cont_fst hx]; rfl

/-- The `count` query parameter always equals the page-size `limit`. -/
theorem pageParams_count (env : Env) (si : Option String) (l : Nat) :
    (pageParams env si l).count = l := by
  cases si <;> rfl

/-- Replay mode: the whole retrieval's trace is exactly one fixture read
(so no GET, no write, no sleep, and no second page). -/
theorem getOperations_mock_events (env : Env) (c : Nat) (si : Option String) (l : Nat)
    (sl : Option Int) (hm : env.session.useMocks = true) :
    (getOperations env c si l sl).1 = [Event.fixtureRead (useName env)] := by
  rcases hx : operationsCall env 0 c si l sl with ⟨es, r⟩
  obtain ⟨h1, h2⟩ := call_mock_events env 0 c si l sl hm
  rw [hx] at h1 h2
  have hes : es = [Event.fixtureRead (useName env)] := h1
  subst hes
  rcases r with e | ⟨ops, cont⟩
  · rw [getOperations_step_err hx]
  · rcases cont with _ | ⟨nc, idx⟩
    · rw [getOperations_step_stop hx]
    · exact absurd rfl (h2 ops nc idx)

theorem deferredFinish_fst (env : CardEnv) (evs : List Event) (d : Json) :
    (deferredFinish env evs d).1
      = if env.session.writeMocks then
          evs ++ [Event.mockWrite (cardWriteName env) (MockPayload.rawText d)]
        else evs := by
  simp only [deferredFinish]
  split
  · rfl
  · split
    · rfl
    · rfl

/-- Deferred-card live fetch with a non-success status: one GET, then the
error carrying the status and body; no write, no decode. -/
theorem deferred_badStatus (env : CardEnv) (hm : env.session.useMocks = false)
    (hst : (env.server (cardQuery env)).status ≠ 200) :
    deferredGetOperations env
      = ([Event.fetchCard (cardQuery env)],
        Except.error (PyError.remoteError (env.server (cardQuery env)).status
          (env.server (cardQuery env)).text)) := by
  simp only [deferredGetOperations]
  rw [if_neg (by simp [hm]), if_pos hst]

/-- Deferred-card live fetch with the write-sink on: the write happens and
persists the raw response text. -/
theorem deferred_writes_live (env : CardEnv) (hm : env.session.useMocks = false)
    (hw : env.session.writeMocks = true)
    (hst : (env.server (cardQuery env)).status = 200) :
    writesOf (deferredGetOperations env).1
      = [(cardWriteName env, MockPayload.rawText (env.server (cardQuery env)).text)] := by
  simp only [deferredGetOperations]
  rw [if_neg (by simp [hm]), if_neg (not_not_intro hst), deferredFinish_fst, if_pos hw,
    writesOf_append]
  rfl

/-- Deferred-card replay read with the write-sink on: the write still
happens (independently of replay mode) and persists the raw fixture
content. -/
theorem deferred_writes_mock (env : CardEnv) (hm : env.session.useMocks = true)
    (hw : env.session.writeMocks = true) {content : Json}
    (hfix : env.session.fixtures (cardUseName env) = some content) :
    writesOf (deferredGetOperations env).1
      = [(cardWriteName env, MockPayload.rawText content)] := by
  simp only [deferredGetOperations]
  rw [if_pos hm]
  simp only [hfix]
  rw [deferredFinish_fst, if_pos hw, writesOf_append]
  rfl

/-- A page request either carries the (quoted) cursor and omits the end
date, or carries the end date and omits the cursor. -/
def cursorShape (p : QueryParams) : Prop :=
  (p.startIndex.isSome = true ∧ p.dateFin = none)
    ∨ (p.startIndex = none ∧ ∃ t, p.dateFin = some t)

theorem buildParams_cursorShape (env : Env) (ts1 ts2 : Int) (si : Option String) (l : Nat) :
    cursorShape (buildParams env ts1 ts2 si l) := by
  cases si with
  | none => exact Or.inr ⟨rfl, ts2, rfl⟩
  | some idx => exact Or.inl ⟨rfl, rfl⟩

theorem sleepEvents_no_fetchLive (sl : Option Int) (p : QueryParams) :
    Event.fetchLive p ∉ sleepEvents sl := by
  cases sl <;> simp [sleepEvents]

/-- Every GET of one invocation was built by `buildParams` from that
invocation's cursor and page size. -/
theorem call_fetchLive_mem (env : Env) (i c : Nat) (si : Option String) (l : Nat)
    (sl : Option Int) (p : QueryParams)
    (h : Event.fetchLive p ∈ (operationsCall env i c si l sl).1) :
    p = pageParams env si l := by
  by_cases hm : env.session.useMocks = true
  · obtain ⟨h1, _⟩ := call_mock_events env i c si l sl hm
    rw [h1] at h
    simp at h
  · have hm' : env.session.useMocks = false := by
      cases henv : env.session.useMocks
      · rfl
      · exact absurd henv hm
    simp only [operationsCall_live env i c si l sl hm'] at h
    split at h
    · simp at h
      exact h
    · split at h
      · split at h
        · simp at h
          exact h
        · rename_i v hv
          rcases operationsFinish_fst (env.server i (pageParams env si l)).text
            [Event.fetchLive (pageParams env si l),
              Event.mockWrite (writeName env) (MockPayload.decoded v)] (c - l) sl
            with hf | hf
          · rw [hf] at h
            simp at h
            exact h
          · rw [hf] at h
            rcases List.mem_append.mp h with h | h
            · simp at h
              exact h
            · exact absurd h (sleepEvents_no_fetchLive sl p)
      · rcases operationsFinish_fst (env.server i (pageParams env si l)).text
          [Event.fetchLive (pageParams env si l)] (c - l) sl with hf | hf
        · rw [hf] at h
          simp at h
          exact h
        · rw [hf] at h
          rcases List.mem_append.mp h with h | h
          · simp at h
            exact h
          · exact absurd h (sleepEvents_no_fetchLive sl p)

/-- Every GET of the tail calls satisfies the cursor/end-date exclusivity. -/
theorem go_fetchLive_shape (env : Env) (p : QueryParams) :
    ∀ c (i : Nat) (cur : String),
      Event.fetchLive p ∈ (getOperationsGo env i c cur).1 → cursorShape p := by
  intro c
  induction c using Nat.strong_induction_on with
  | _ c ih =>
    intro i cur h
    rcases hx : operationsCall env i c (some cur) 30 none with ⟨es, r⟩
    rcases r with e | ⟨ops, cont⟩
    · rw [go_step_err hx] at h
      rw [call_fetchLive_mem env i c (some cur) 30 none p (by rw [hx]; exact h)]
      exact buildParams_cursorShape env _ _ (some cur) 30
    · rcases cont with _ | ⟨nc, idx⟩
      · rw [go_step_stop hx] at h
        rw [call_fetchLive_mem env i c (some cur) 30 none p (by rw [hx]; exact h)]
        exact buildParams_cursorShape env _ _ (some cur) 30
      · rw [go_step_cont_fst hx] at h
        rcases List.mem_append.mp h with h | h
        · rw [call_fetchLive_mem env i c (some cur) 30 none p (by rw [hx]; exact h)]
          exact buildParams_cursorShape env _ _ (some cur) 30
        · have hlt := operationsCall_cont hx
          exact ih nc (by omega) (i + 1) idx h

/-- Every GET of a whole windowed retrieval satisfies the cursor/end-date
exclusivity. -/
theorem getOperations_fetchLive_shape (env : Env) (c : Nat) (si : Option String)
    (l : Nat) (sl : Option Int) (p : QueryParams)
    (h : Event.fetchLive p ∈ (getOperations env c si l sl).1) : cursorShape p := by
  rcases hx : operationsCall env 0 c si l sl with ⟨es, r⟩
  rcases r with e | ⟨ops, cont⟩
  · rw [getOperations_step_err hx] at h
    rw [call_fetchLive_mem env 0 c si l sl p (by rw [hx]; exact h)]
    exact buildParams_cursorShape env _ _ si l
  · rcases cont with _ | ⟨nc, idx⟩
    · rw [getOperations_step_stop hx] at h
      rw [call_fetchLive_mem env 0 c si l sl p (by rw [hx]; exact h)]
      exact buildParams_cursorShape env _ _ si l
    · rw [getOperations_step_cont_fst hx] at h
      rcases List.mem_append.mp h with h | h
      · rw [call_fetchLive_mem env 0 c si l sl p (by rw [hx]; exact h)]
        exact buildParams_cursorShape env _ _ si l
      · exact go_fetchLive_shape env p nc 1 idx h

/-! Concrete data and environments used by witnesses and counterexamples. -/

def entryA : Json :=
  Json.obj [("libelleOperation", Json.str "PAYMENT A"),
    ("dateOperation", Json.str "2024-01-02"), ("montant", Json.num (-5))]

def opA : Operation :=
  ⟨entryA, Json.str "PAYMENT A", Json.str "2024-01-02", Json.num (-5)⟩

def entryB : Json :=
  Json.obj [("libelleOperation", Json.str "PAYMENT B"),
    ("dateOperation", Json.str "2024-01-03"), ("montant", Json.num 7)]

def opB : Operation :=
  ⟨entryB, Json.str "PAYMENT B", Json.str "2024-01-03", Json.num 7⟩

def contPage : Json :=
  Json.obj [("listeOperations", Json.arr []), ("nextSetStartIndex", Json.str "X"),
    ("hasNext", Json.bool true)]

def lastPage : Json := Json.obj [("listeOperations", Json.arr [])]

def pageA : Json :=
  Json.obj [("listeOperations", Json.arr [entryA]), ("nextSetStartIndex", Json.str "X"),
    ("hasNext", Json.bool true)]

def pageB : Json := Json.obj [("listeOperations", Json.arr [entryB])]

def twoEntryPage : Json :=
  Json.obj [("listeOperations", Json.arr [entryA, entryB]), ("hasNext", Json.bool false)]

def liveSession : Session := ⟨false, false, "use", "write", fun _ => none⟩

def mkEnv (sess : Session) (server : Nat → QueryParams → HttpResponse) : Env :=
  ⟨sess, "007", "1", "2024-01-01", "2024-01-31", fun _ => 0, server⟩

def contEnv : Env := mkEnv liveSession (fun _ _ => ⟨200, contPage⟩)

def stopEnv : Env :=
  mkEnv liveSession (fun n _ =>
    match n with
    | 0 => ⟨200, contPage⟩
    | _ + 1 => ⟨200, lastPage⟩)

def pagesEnv : Env :=
  mkEnv liveSession (fun n _ =>
    match n with
    | 0 => ⟨200, pageA⟩
    | _ + 1 => ⟨200, pageB⟩)

def pagesO : Nat → List Operation
  | 0 => [opA]
  | _ + 1 => [opB]

def failEnv : Env :=
  mkEnv liveSession (fun n _ =>
    match n with
    | 0 => ⟨200, contPage⟩
    | _ + 1 => ⟨500, Json.str "server error"⟩)

def badEnv : Env := mkEnv liveSession (fun _ _ => ⟨500, Json.str "oops"⟩)

def singlePageEnv : Env := mkEnv liveSession (fun _ _ => ⟨200, twoEntryPage⟩)

def replaySession : Session := ⟨true, false, "use", "write", fun _ => some (Json.arr [entryA])⟩

def replayEnv : Env := mkEnv replaySession (fun _ _ => ⟨200, contPage⟩)

def replayWriteSession : Session :=
  ⟨true, true, "use", "write", fun _ => some (Json.arr [entryA])⟩

def replayWriteEnv : Env := mkEnv replayWriteSession (fun _ _ => ⟨200, contPage⟩)

def recordSession : Session := ⟨false, true, "use", "write", fun _ => none⟩

def recordEnv : Env := mkEnv recordSession (fun _ _ => ⟨200, twoEntryPage⟩)

def cardRecordEnv : CardEnv :=
  ⟨recordSession, "007", "1", "9", fun _ => ⟨200, Json.arr [entryA]⟩⟩

def cardReplayWriteEnv : CardEnv :=
  ⟨⟨true, true, "use", "write", fun _ => some (Json.arr [entryB])⟩, "007", "1", "9",
    fun _ => ⟨200, Json.arr []⟩⟩

def cardBadEnv : CardEnv :=
  ⟨liveSession, "007", "1", "9", fun _ => ⟨500, Json.str "bad card"⟩⟩

/-! Claim theorems. -/

/-- Claim C1 (counterexample): with the default page-size limit 30 and a
requested count of 10, the first page request's `count` parameter is 30,
not `min(10, 30) = 10`: line 193 always sends `limit`, never the clamp. -/
theorem C1_counterexample :
    (firstFetchParams (OperationsInit contEnv 10 none).1).map QueryParams.count = some 30
      ∧ ¬ min 10 30 = 30 :=
  ⟨rfl, by decide⟩

/-- Claim C1 (amended): on the first page request of a live windowed
retrieval the `count` query parameter equals the page-size limit in effect
(default 30) regardless of the requested count; in particular a caller
requesting fewer than 30 records is still asked 30 from the server. -/
theorem C1_amended (env : Env) (c : Nat) (si : Option String) (l : Nat) (sl : Option Int)
    (hm : env.session.useMocks = false) :
    (firstFetchParams (getOperations env c si l sl).1).map QueryParams.count = some l := by
  rw [getOperations_firstFetch env c si l sl hm]
  simp [pageParams_count]

/-- Witness for C1's amended theorem at a concrete input. -/
theorem C1_witness :
    (firstFetchParams (getOperations contEnv 10 none 30 none).1).map QueryParams.count
      = some 30 :=
  C1_amended contEnv 10 none 30 none rfl

/-- Claim C2 (evaluation at the failing input): with `sleep = 1` configured
and three pages fetched (count 90, every page continuing), the engine
suspends only once — between the first and second fetches — because line
213 does not pass `sleep` to the recursive call; with no delay configured
no suspension occurs. -/
theorem C2_bug_eval :
    countFetch (getOperations contEnv 90 none 30 (some 1)).1 = 3
      ∧ countSleeps (getOperations contEnv 90 none 30 (some 1)).1 = 1
      ∧ countSleeps (getOperations contEnv 90 none 30 none).1 = 0 :=
  ⟨rfl, rfl, rfl⟩

/-- Claim C3 (counterexample): a windowed replay-mode retrieval with the
write-sink enabled performs no write at all (the windowed write sits inside
the live branch only), and a deferred live retrieval writes the raw
response text, not the decoded list. -/
theorem C3_counterexample :
    writesOf (getOperations replayWriteEnv 10 none 30 none).1 = []
      ∧ writesOf (deferredGetOperations cardRecordEnv).1
        = [(cardWriteName cardRecordEnv, MockPayload.rawText (Json.arr [entryA]))] :=
  ⟨rfl, rfl⟩

/-- Claim C3 (amended): (a) a windowed replay retrieval never writes;
(b) a live windowed fetch with the write-sink on writes exactly the decoded
inner list under the write-suffix name, once per successful fetch; (c) a
deferred live retrieval with the write-sink on writes the raw response
text; (d) a deferred replay retrieval with the write-sink on still writes —
independently of replay mode — but persists the raw fixture content, not a
decoded list. -/
theorem C3_amended :
    (∀ (env : Env) (c : Nat) (si : Option String) (l : Nat) (sl : Option Int),
      env.session.useMocks = true → writesOf (getOperations env c si l sl).1 = [])
    ∧ (∀ (env : Env) (i c : Nat) (si : Option String) (l : Nat) (sl : Option Int) (v : Json),
      env.session.useMocks = false → env.session.writeMocks = true →
      (env.server i (pageParams env si l)).status = 200 →
      (env.server i (pageParams env si l)).text.getKey "listeOperations" = Except.ok v →
      writesOf (operationsCall env i c si l sl).1
        = [(writeName env, MockPayload.decoded v)])
    ∧ (∀ env : CardEnv, env.session.useMocks = false → env.session.writeMocks = true →
      (env.server (cardQuery env)).status = 200 →
      writesOf (deferredGetOperations env).1
        = [(cardWriteName env, MockPayload.rawText (env.server (cardQuery env)).text)])
    ∧ (∀ (env : CardEnv) (content : Json), env.session.useMocks = true →
      env.session.writeMocks = true →
      env.session.fixtures (cardUseName env) = some content →
      writesOf (deferredGetOperations env).1
        = [(cardWriteName env, MockPayload.rawText content)]) := by
  refine ⟨?_, ?_, ?_, ?_⟩
  · intro env c si l sl hm
    rw [getOperations_mock_events env c si l sl hm]
    rfl
  · intro env i c si l sl v hm hw hst hkey
    exact call_live_writes_on env i c si l sl hm hw hst hkey
  · intro env hm hw hst
    exact deferred_writes_live env hm hw hst
  · intro env content hm hw hfix
    exact deferred_writes_mock env hm hw hfix

/-- Witness for C3's amended theorem at concrete inputs. -/
theorem C3_witness :
    writesOf (getOperations replayWriteEnv 50 none 30 none).1 = []
      ∧ writesOf (operationsCall recordEnv 0 10 none 30 none).1
        = [(writeName recordEnv, MockPayload.decoded (Json.arr [entryA, entryB]))]
      ∧ writesOf (deferredGetOperations cardRecordEnv).1
        = [(cardWriteName cardRecordEnv,
          MockPayload.rawText (cardRecordEnv.server (cardQuery cardRecordEnv)).text)]
      ∧ writesOf (deferredGetOperations cardReplayWriteEnv).1
        = [(cardWriteName cardReplayWriteEnv, MockPayload.rawText (Json.arr [entryB]))] :=
  ⟨C3_amended.1 replayWriteEnv 50 none 30 none rfl,
    C3_amended.2.1 recordEnv 0 10 none 30 none (Json.arr [entryA, entryB]) rfl rfl rfl rfl,
    C3_amended.2.2.1 cardRecordEnv rfl rfl rfl,
    C3_amended.2.2.2 cardReplayWriteEnv (Json.arr [entryB]) rfl rfl rfl⟩

/-- Claim C4: a page request built with a continuation cursor carries the
(quoted) cursor and omits `dateFin`; one built without a cursor carries
`dateFin` and omits `startIndex`; and every GET the engine actually issues
satisfies this exclusivity. -/
theorem C4_params (env : Env) (ts1 ts2 : Int) (l : Nat) :
    (∀ idx, (buildParams env ts1 ts2 (some idx) l).startIndex
        = some (requestsUtilsQuote idx)
      ∧ (buildParams env ts1 ts2 (some idx) l).dateFin = none)
    ∧ ((buildParams env ts1 ts2 none l).startIndex = none
      ∧ (buildParams env ts1 ts2 none l).dateFin = some ts2)
    ∧ (∀ (c : Nat) (si : Option String) (sl : Option Int) (p : QueryParams),
      Event.fetchLive p ∈ (getOperations env c si l sl).1 → cursorShape p) := by
  refine ⟨fun idx => ⟨rfl, rfl⟩, ⟨rfl, rfl⟩, ?_⟩
  intro c si sl p h
  exact getOperations_fetchLive_shape env c si l sl p h

/-- Witness for C4 at a concrete input. -/
theorem C4_witness :
    (buildParams contEnv 0 0 (some "X") 30).dateFin = none
      ∧ cursorShape (pageParams contEnv none 30) :=
  ⟨((C4_params contEnv 0 0 30).1 "X").2,
    (C4_params contEnv 0 0 30).2.2 100 none none (pageParams contEnv none 30)
      (List.Mem.head _)⟩

/-- Claim C5 (counterexample): with requested count 100 and page size 50
against an always-continuing server, the engine issues 3 fetches, not
`ceil(100 / 50) = 2`: continuation pages revert to the default page size
30. -/
theorem C5_counterexample :
    alwaysCont contEnv
      ∧ countFetch (getOperations contEnv 100 none 50 none).1 = 3
      ∧ (100 + 50 - 1) / 50 = 2 := by
  refine ⟨?_, rfl, rfl⟩
  intro n p
  exact ⟨rfl, ⟨[], rfl⟩, ⟨"X", rfl⟩, rfl⟩

/-- Claim C5 (amended): for requested count C and first-page size P, an
always-continuing server yields exactly 1 fetch when C ≤ P and otherwise
`1 + ceil((C - P) / 30)` fetches, because continuation pages always use the
default page size 30 (for P = 30 this equals `ceil(C / 30)`); and when the
server signals exhaustion at fetch K, the engine terminates after that
fetch: `min` of the two bounds. -/
theorem C5_amended :
    (∀ (env : Env) (C P : Nat) (si : Option String) (sl : Option Int),
      env.session.useMocks = false → alwaysCont env →
      countFetch (getOperations env C si P sl).1
        = if C ≤ P then 1 else 1 + ((C - P) + 29) / 30)
    ∧ (∀ (env : Env) (K C P : Nat) (si : Option String) (sl : Option Int),
      env.session.useMocks = false → contBelow env K → stopAt env K →
      countFetch (getOperations env C si P sl).1
        = min (if C ≤ P then 1 else 1 + ((C - P) + 29) / 30) (K + 1)) :=
  ⟨fun env C P si sl hm hgood => getOperations_countFetch_allCont env hm hgood C P si sl,
    fun env K C P si sl hm hcont hstop =>
      getOperations_countFetch_stop env K hm hcont hstop C P si sl⟩

/-- Witness for C5's amended theorem at concrete inputs. -/
theorem C5_witness :
    countFetch (getOperations contEnv 100 none 30 none).1
      = (if 100 ≤ 30 then 1 else 1 + ((100 - 30) + 29) / 30)
    ∧ countFetch (getOperations stopEnv 100 none 30 none).1
      = min (if 100 ≤ 30 then 1 else 1 + ((100 - 30) + 29) / 30) (1 + 1) :=
  ⟨C5_amended.1 contEnv 100 30 none none rfl
      (fun n p => ⟨rfl, ⟨[], rfl⟩, ⟨"X", rfl⟩, rfl⟩),
    C5_amended.2 stopEnv 1 100 30 none none rfl
      (by
        intro n p hn
        have h0 : n = 0 := by omega
        subst h0
        exact ⟨rfl, ⟨[], rfl⟩, ⟨"X", rfl⟩, rfl⟩)
      (fun p => ⟨rfl, ⟨[], rfl⟩, rfl⟩)⟩

/-- Claim C6: a live windowed retrieval requesting fewer records than the
effective page size issues exactly one fetch and returns every entry of
that page — the page is never truncated to the requested count. -/
theorem C6_onePage (env : Env) (C P : Nat) (si : Option String) (sl : Option Int)
    {ops : List Operation}
    (hm : env.session.useMocks = false) (hCP : C < P)
    (hst : (env.server 0 (pageParams env si P)).status = 200)
    (hdec : decodePage (env.server 0 (pageParams env si P)).text = Except.ok ops) :
    countFetch (getOperations env C si P sl).1 = 1
      ∧ (getOperations env C si P sl).2 = Except.ok ops := by
  rcases hx : operationsCall env 0 C si P sl with ⟨es, r⟩
  have hfc : countFetch es = 1 := by
    have h1 := call_live_countFetch env 0 C si P sl hm
    rw [hx] at h1
    exact h1
  have h2 : r = Except.ok (ops, none) := by
    have hz : C - P = 0 := by omega
    have h3 := call_live_stop env 0 C si P sl hm hst hdec (by simp [hz])
    rw [hx] at h3
    exact h3
  subst h2
  rw [getOperations_step_stop hx]
  exact ⟨hfc, rfl⟩

/-- Witness for C6 at a concrete input: one requested record, a two-entry
page, both entries returned after a single fetch. -/
theorem C6_witness :
    countFetch (getOperations singlePageEnv 1 none 30 none).1 = 1
      ∧ (getOperations singlePageEnv 1 none 30 none).2 = Except.ok [opA, opB] :=
  C6_onePage singlePageEnv 1 30 none none rfl (by decide) rfl rfl

/-- Claim C7: the returned sequence equals the concatenation, in fetch
order, of the decoded entry lists of all fetched pages — no entry dropped,
duplicated, or reordered. -/
theorem C7_concat (env : Env) (O : Nat → List Operation) (C P : Nat)
    (si : Option String) (sl : Option Int)
    (hm : env.session.useMocks = false) (hOk : pagesOk env O) :
    (getOperations env C si P sl).2
      = Except.ok (((List.range (countFetch (getOperations env C si P sl).1)).map
          O).flatten) :=
  getOperations_pages env O hm hOk C P si sl

/-- Witness for C7 at a concrete two-page input. -/
theorem C7_witness :
    (getOperations pagesEnv 40 none 30 none).2
      = Except.ok (((List.range (countFetch (getOperations pagesEnv 40 none 30 none).1)).map
          pagesO).flatten) :=
  C7_concat pagesEnv pagesO 40 30 none none rfl
    (by
      intro n p
      cases n with
      | zero => exact ⟨rfl, rfl, Or.inl ⟨"X", rfl⟩⟩
      | succ m => exact ⟨rfl, rfl, Or.inr rfl⟩)

/-- Claim C8: a live fetch answered with a non-success status fails the
retrieval with an error carrying the status code and body, and the trace
shows exactly that one GET — no further pages and no retry — for the first
windowed fetch, for any continuation fetch, and for the deferred-card
fetch. -/
theorem C8_badStatus :
    (∀ (env : Env) (c : Nat) (si : Option String) (l : Nat) (sl : Option Int),
      env.session.useMocks = false →
      (env.server 0 (pageParams env si l)).status ≠ 200 →
      getOperations env c si l sl
        = ([Event.fetchLive (pageParams env si l)],
          Except.error (PyError.remoteError (env.server 0 (pageParams env si l)).status
            (env.server 0 (pageParams env si l)).text)))
    ∧ (∀ (env : Env) (i c : Nat) (cur : String),
      env.session.useMocks = false →
      (env.server i (pageParams env (some cur) 30)).status ≠ 200 →
      getOperationsGo env i c cur
        = ([Event.fetchLive (pageParams env (some cur) 30)],
          Except.error
            (PyError.remoteError (env.server i (pageParams env (some cur) 30)).status
              (env.server i (pageParams env (some cur) 30)).text)))
    ∧ (∀ env : CardEnv, env.session.useMocks = false →
      (env.server (cardQuery env)).status ≠ 200 →
      deferredGetOperations env
        = ([Event.fetchCard (cardQuery env)],
          Except.error (PyError.remoteError (env.server (cardQuery env)).status
            (env.server (cardQuery env)).text))) := by
  refine ⟨?_, ?_, ?_⟩
  · intro env c si l sl hm hst
    exact getOperations_step_err (call_live_badStatus env 0 c si l sl hm hst)
  · intro env i c cur hm hst
    exact go_step_err (call_live_badStatus env i c (some cur) 30 none hm hst)
  · intro env hm hst
    exact deferred_badStatus env hm hst

/-- Witness for C8 at concrete inputs returning HTTP 500. -/
theorem C8_witness :
    getOperations badEnv 100 none 30 none
      = ([Event.fetchLive (pageParams badEnv none 30)],
        Except.error (PyError.remoteError 500 (Json.str "oops")))
    ∧ deferredGetOperations cardBadEnv
      = ([Event.fetchCard (cardQuery cardBadEnv)],
        Except.error (PyError.remoteError 500 (Json.str "bad card"))) :=
  ⟨C8_badStatus.1 badEnv 100 none 30 none rfl (by decide),
    C8_badStatus.2.2 cardBadEnv rfl (by decide)⟩

/-- Claim C9: when a fetch after the first fails, the retrieval surfaces
the error and returns no records: the page already accumulated is
discarded, not returned as a partial list. -/
theorem C9_noPartial (env : Env) (C : Nat) (sl : Option Int)
    {ops0 : List Operation} {s0 : String}
    (hm : env.session.useMocks = false) (hC : 30 < C)
    (hst0 : (env.server 0 (pageParams env none 30)).status = 200)
    (hdec0 : decodePage (env.server 0 (pageParams env none 30)).text = Except.ok ops0)
    (hnext0 : (env.server 0 (pageParams env none 30)).text.lookup "nextSetStartIndex"
      = some (Json.str s0))
    (hhn0 : (env.server 0 (pageParams env none 30)).text.lookup "hasNext"
      = some (Json.bool true))
    (hbad : (env.server 1 (pageParams env (some s0) 30)).status ≠ 200) :
    (getOperations env C none 30 sl).2
      = Except.error
        (PyError.remoteError (env.server 1 (pageParams env (some s0) 30)).status
          (env.server 1 (pageParams env (some s0) 30)).text)
    ∧ countFetch (getOperations env C none 30 sl).1 = 2 := by
  rcases hx : operationsCall env 0 C none 30 sl with ⟨es, r⟩
  have hfc : countFetch es = 1 := by
    have h1 := call_live_countFetch env 0 C none 30 sl hm
    rw [hx] at h1
    exact h1
  have h2 : r = Except.ok (ops0, some (C - 30, s0)) := by
    have h3 := call_live_cont env 0 C none 30 sl hm hst0 hdec0 hnext0 hhn0 hC
    rw [hx] at h3
    exact h3
  subst h2
  have hgo := go_step_err (call_live_badStatus env 1 (C - 30) (some s0) 30 none hm hbad)
  constructor
  · rw [getOperations_step_cont_snd hx, hgo]
    rfl
  · rw [getOperations_step_cont_fst hx, countFetch_append, hfc, hgo]
    rfl

/-- Witness for C9 at a concrete input whose second page returns 500. -/
theorem C9_witness :
    (getOperations failEnv 100 none 30 none).2
      = Except.error (PyError.remoteError 500 (Json.str "server error"))
    ∧ countFetch (getOperations failEnv 100 none 30 none).1 = 2 :=
  @C9_noPartial failEnv 100 none [] "X" rfl (by decide) rfl rfl rfl rfl (by decide)

/-- Claim C10: a windowed retrieval in replay mode performs exactly one
fixture read and nothing else — no HTTP request, no write, no sleep — and
never continues to a second page, because the replay envelope carries only
`listeOperations`, so the continuation guard can never hold. -/
theorem C10_replay (env : Env) (c : Nat) (si : Option String) (l : Nat) (sl : Option Int)
    (hm : env.session.useMocks = true) :
    (getOperations env c si l sl).1 = [Event.fixtureRead (useName env)] :=
  getOperations_mock_events env c si l sl hm

/-- Witness for C10 at a concrete input with a huge requested count. -/
theorem C10_witness :
    (getOperations replayEnv 1000 none 30 (some 1)).1
      = [Event.fixtureRead (useName replayEnv)] :=
  C10_replay replayEnv 1000 none 30 (some 1) rfl
